import Mathlib

/-!
Verification development for the send-to-chatgpt browser extension.

The TypeScript sources are embedded shallowly: pure functions become Lean
functions on `String`/`List`; the Chrome APIs (storage backends, tab
creation, clipboard) are modelled by explicit environments recording which
operations succeed, and the functions return, next to their result, the
list of side effects they performed.

JavaScript `string.trim()` is modelled by `jsTrim`, which strips the
ECMAScript whitespace set from both ends.  JavaScript strings that may be
`null`/`undefined` are modelled as `Option String`, with `x || ''`
becoming `Option.getD x ""`.
-/

/-- The ECMAScript whitespace set used by `String.prototype.trim`:
space, tab, LF, CR, VT, FF, NBSP, the Unicode space separators,
LS, PS, and the BOM. -/
def isJsWhitespace (c : Char) : Bool :=
  c == ' ' || c == '\t' || c == '\n' || c == '\r' || c == '\x0b' || c == '\x0c' ||
  c.toNat == 0xa0 || c.toNat == 0x1680 ||
  (decide (0x2000 ≤ c.toNat) && decide (c.toNat ≤ 0x200a)) ||
  c.toNat == 0x2028 || c.toNat == 0x2029 || c.toNat == 0x202f ||
  c.toNat == 0x205f || c.toNat == 0x3000 || c.toNat == 0xfeff

/-- Model of JavaScript `s.trim()`: drop whitespace from both ends. -/
def jsTrim (s : String) : String :=
  ⟨((s.data.dropWhile isJsWhitespace).reverse.dropWhile isJsWhitespace).reverse⟩

/-- `AIMessage` from `ai-integration.ts`.  `text` and `instructions` are
declared `string` in TypeScript but the code defends against
`null`/`undefined` with `|| ''`, so they are modelled as `Option String`. -/
structure AIMessage where
  text : Option String
  instructions : Option String
  model : Option String := none
  platform : Option String := none
deriving DecidableEq, Repr

/-- `formatMessageForClipboard` from `ai-integration.ts` (lines 60-76):
null-coalesce both fields, emit trimmed instructions followed by a blank
line when non-empty, then the trimmed text wrapped in triple quotes when
non-empty. -/
def formatMessageForClipboard (message : AIMessage) : String :=
  let safeInstructions := message.instructions.getD ""
  let safeText := message.text.getD ""
  let fullMessage := if jsTrim safeInstructions = "" then ""
    else jsTrim safeInstructions ++ "\n\n"
  let fullMessage := if jsTrim safeText = "" then fullMessage
    else fullMessage ++ ("\"\"\"\n" ++ jsTrim safeText ++ "\n\"\"\"")
  fullMessage

/-- The output shape claimed by the specification for
`formatMessageForClipboard`: the concatenation of an instructions block
and a quoted text block, each empty when the corresponding field trims
to empty. -/
def formatMessageSpec (message : AIMessage) : String :=
  (if jsTrim (message.instructions.getD "") = "" then ""
   else jsTrim (message.instructions.getD "") ++ "\n\n") ++
  (if jsTrim (message.text.getD "") = "" then ""
   else "\"\"\"\n" ++ jsTrim (message.text.getD "") ++ "\n\"\"\"")

/-- When both fields trim to empty the formatted message is empty. -/
theorem formatMessage_empty_of_blank (message : AIMessage)
    (ht : jsTrim (message.text.getD "") = "")
    (hi : jsTrim (message.instructions.getD "") = "") :
    formatMessageForClipboard message = "" := by
  unfold formatMessageForClipboard
  simp [hi, ht]

/-- C1: `formatMessageForClipboard` null-coalesces both fields, emits
`instructions.trim() + "\n\n"` when the trimmed instructions are
non-empty, appends the trimmed text wrapped in triple quotes when it is
non-empty, returns `""` when both trim to empty, and on
`{text := "hello", instructions := "do X"}` yields the documented
concrete string. -/
theorem formatMessageForClipboard_correct :
    (∀ message : AIMessage, formatMessageForClipboard message = formatMessageSpec message) ∧
    (∀ message : AIMessage,
      jsTrim (message.text.getD "") = "" → jsTrim (message.instructions.getD "") = "" →
      formatMessageForClipboard message = "") ∧
    formatMessageForClipboard { text := some "hello", instructions := some "do X" } =
      "do X\n\n\"\"\"\nhello\n\"\"\"" := by
  refine ⟨?_, ?_, by decide⟩
  · intro message
    unfold formatMessageForClipboard formatMessageSpec
    by_cases hi : jsTrim (message.instructions.getD "") = "" <;>
      by_cases ht : jsTrim (message.text.getD "") = "" <;>
      simp [hi, ht]
  · intro message ht hi
    exact formatMessage_empty_of_blank message ht hi

/-- Witness for C1: the concrete example from the specification,
discharging the emptiness hypotheses at an all-whitespace message. -/
theorem formatMessageForClipboard_correct_witness :
    formatMessageForClipboard { text := some " ", instructions := some "" } = "" :=
  formatMessageForClipboard_correct.2.1 { text := some " ", instructions := some "" }
    (by decide) (by decide)

/-- Result shape of `validateMessage` in `ai-integration.ts`. -/
structure ValidationResult where
  valid : Bool
  error : Option String := none
deriving DecidableEq, Repr

/-- `validateMessage` from `ai-integration.ts` (lines 179-205): reject
when both null-coalesced fields trim to empty, then reject when the
formatted message exceeds 16384 characters, otherwise accept. -/
def validateMessage (message : AIMessage) : ValidationResult :=
  let safeText := message.text.getD ""
  let safeInstructions := message.instructions.getD ""
  if jsTrim safeText = "" ∧ jsTrim safeInstructions = "" then
    { valid := false, error := some "Please enter some text or instructions" }
  else
    let fullMessage := formatMessageForClipboard message
    if fullMessage.length > 16384 then
      { valid := false, error := some "Message too long. Please shorten your text or instructions." }
    else
      { valid := true }

/-- C2: `validateMessage` returns the "Please enter some text or
instructions" failure exactly when both fields trim to empty, the
"Message too long" failure exactly when the formatted message is longer
than 16384 characters, and `valid := true` in every other case. -/
theorem validateMessage_correct (message : AIMessage) :
    (validateMessage message =
        { valid := false, error := some "Please enter some text or instructions" } ↔
      (jsTrim (message.text.getD "") = "" ∧ jsTrim (message.instructions.getD "") = "")) ∧
    (validateMessage message =
        { valid := false,
          error := some "Message too long. Please shorten your text or instructions." } ↔
      (formatMessageForClipboard message).length > 16384) ∧
    (validateMessage message = { valid := true, error := none } ↔
      (¬ (jsTrim (message.text.getD "") = "" ∧ jsTrim (message.instructions.getD "") = "") ∧
        (formatMessageForClipboard message).length ≤ 16384)) := by
  by_cases hempty :
      jsTrim (message.text.getD "") = "" ∧ jsTrim (message.instructions.getD "") = ""
  · have hfmt : formatMessageForClipboard message = "" :=
      formatMessage_empty_of_blank message hempty.1 hempty.2
    refine ⟨?_, ?_, ?_⟩ <;>
      simp [validateMessage, hempty, hfmt, ValidationResult.mk.injEq]
  · by_cases hlong : (formatMessageForClipboard message).length > 16384
    · refine ⟨?_, ?_, ?_⟩ <;>
        simp [validateMessage, hempty, hlong, ValidationResult.mk.injEq]
    · refine ⟨?_, ?_, ?_⟩ <;>
        simp [validateMessage, hempty, hlong, ValidationResult.mk.injEq]
      omega

/-- Upper-case hexadecimal digit, as produced by `URLSearchParams`
percent-encoding. -/
def hexDigitChar (n : Nat) : Char :=
  if n < 10 then Char.ofNat (48 + n) else Char.ofNat (55 + n)

/-- UTF-8 encoding of a single character, as a list of byte values. -/
def utf8Bytes (c : Char) : List Nat :=
  let v := c.toNat
  if v < 0x80 then [v]
  else if v < 0x800 then [0xc0 + v / 0x40, 0x80 + v % 0x40]
  else if v < 0x10000 then
    [0xe0 + v / 0x1000, 0x80 + (v / 0x40) % 0x40, 0x80 + v % 0x40]
  else
    [0xf0 + v / 0x40000, 0x80 + (v / 0x1000) % 0x40, 0x80 + (v / 0x40) % 0x40,
      0x80 + v % 0x40]

/-- `%XY` escape for one byte. -/
def percentEncodeByte (b : Nat) : String :=
  "%" ++ String.singleton (hexDigitChar (b / 16)) ++ String.singleton (hexDigitChar (b % 16))

/-- Characters that `URLSearchParams` serialization leaves unescaped
(`application/x-www-form-urlencoded`): ASCII alphanumerics and
`*`, `-`, `.`, `_`. -/
def isFormUrlSafe (c : Char) : Bool :=
  c.isAlphanum || c == '*' || c == '-' || c == '.' || c == '_'

/-- Percent-escape a byte sequence. -/
def percentEncodeBytes : List Nat → String
  | [] => ""
  | b :: bs => percentEncodeByte b ++ percentEncodeBytes bs

/-- `application/x-www-form-urlencoded` serialization of one character:
a space becomes `+`, a safe character passes through, everything else is
percent-encoded byte-wise in UTF-8. -/
def encodeFormChar (c : Char) : String :=
  if c == ' ' then "+"
  else if isFormUrlSafe c then String.singleton c
  else percentEncodeBytes (utf8Bytes c)

/-- Character-wise serialization of a list. -/
def encodeFormList : List Char → String
  | [] => ""
  | c :: cs => encodeFormChar c ++ encodeFormList cs

/-- `application/x-www-form-urlencoded` serialization of a parameter
value, as performed by `url.searchParams.set` + `url.toString()`. -/
def encodeFormComponent (s : String) : String :=
  encodeFormList s.data

/-- `buildChatGPTUrl` from `ai-integration.ts` (lines 29-55): format the
message exactly as the clipboard formatter does, set it as the `q` query
parameter of `https://chatgpt.com` (whose normalized serialization is
`https://chatgpt.com/?q=...`), and append a `model` parameter only when
the model differs from the `gpt-4o` default. -/
def buildChatGPTUrl (message : AIMessage) : String :=
  let model := message.model.getD "gpt-4o"
  let safeInstructions := message.instructions.getD ""
  let safeText := message.text.getD ""
  let fullMessage := if jsTrim safeInstructions = "" then ""
    else jsTrim safeInstructions ++ "\n\n"
  let fullMessage := if jsTrim safeText = "" then fullMessage
    else fullMessage ++ ("\"\"\"\n" ++ jsTrim safeText ++ "\n\"\"\"")
  let base := "https://chatgpt.com/?q=" ++ encodeFormComponent fullMessage
  if model = "gpt-4o" then base else base ++ "&model=" ++ encodeFormComponent model

/-- `AIPlatform` from `ai-platforms.ts`. -/
structure AIPlatform where
  id : String
  name : String
  url : String
  selectors : List String
  color : Option String := none
  icon : String
deriving DecidableEq, Repr

/-- The built-in `chatgpt` entry of the `AI_PLATFORMS` table. -/
def chatgptPlatform : AIPlatform :=
  { id := "chatgpt", name := "ChatGPT", url := "https://chatgpt.com",
    selectors := ["textarea[data-id=\"root\"]", "textarea[placeholder*=\"Message\"]",
      "textarea[placeholder*=\"message\"]", "textarea[placeholder*=\"Send\"]",
      "textarea[placeholder*=\"send\"]", "div[contenteditable=\"true\"]", "textarea"],
    color := some "#10a37f", icon := "🤖" }

/-- The built-in `claude` entry of the `AI_PLATFORMS` table. -/
def claudePlatform : AIPlatform :=
  { id := "claude", name := "Claude", url := "https://claude.ai/new",
    selectors := ["div[contenteditable=\"true\"]", "textarea[placeholder*=\"Talk to Claude\"]",
      "textarea[placeholder*=\"Message\"]", "textarea[placeholder*=\"message\"]",
      ".ProseMirror", "textarea"],
    color := some "#cc785c", icon := "🔶" }

/-- The built-in `gemini` entry of the `AI_PLATFORMS` table. -/
def geminiPlatform : AIPlatform :=
  { id := "gemini", name := "Gemini", url := "https://gemini.google.com/app",
    selectors := ["textarea[placeholder*=\"Enter a prompt here\"]",
      "textarea[placeholder*=\"Message Gemini\"]", "div[contenteditable=\"true\"]",
      "textarea[placeholder*=\"Ask Gemini\"]", "textarea"],
    color := some "#4285f4", icon := "✨" }

/-- Lookup in the fixed `AI_PLATFORMS` record of `ai-platforms.ts`. -/
def AI_PLATFORMS (platformId : String) : Option AIPlatform :=
  if platformId = "chatgpt" then some chatgptPlatform
  else if platformId = "claude" then some claudePlatform
  else if platformId = "gemini" then some geminiPlatform
  else none

/-- `CustomPlatform` from `storage.ts`. -/
structure CustomPlatform where
  id : String
  name : String
  icon : String
  url : String
deriving DecidableEq, Repr

/-- Projection of a stored custom platform to an `AIPlatform`, as built
inline in `getPlatform`: empty selector list and the default gray color. -/
def projectCustomPlatform (customPlatform : CustomPlatform) : AIPlatform :=
  { id := customPlatform.id, name := customPlatform.name, url := customPlatform.url,
    icon := customPlatform.icon, selectors := [], color := some "#6b7280" }

/-- `getPlatform` from `ai-platforms.ts` (lines 64-87), parameterized by
the custom-platform list that `storageManager.getCustomPlatforms()`
yields: built-ins first, then custom platforms by id, then the built-in
`chatgpt` fallback. -/
def getPlatform (customPlatforms : List CustomPlatform) (platformId : String) : AIPlatform :=
  match AI_PLATFORMS platformId with
  | some platform => platform
  | none =>
    match customPlatforms.find? (fun p => p.id == platformId) with
    | some customPlatform => projectCustomPlatform customPlatform
    | none => chatgptPlatform

/-- The list update performed by `StorageManager.removeCustomPlatform`
(storage.ts lines 168-172): filter out the matching id. -/
def removeCustomPlatform (platforms : List CustomPlatform) (id : String) :
    List CustomPlatform :=
  platforms.filter (fun p => p.id != id)

/-- Delivery method of an `AIResult`. -/
inductive Method where
  | deeplink
  | clipboard
deriving DecidableEq, Repr

/-- `AIResult` from `ai-integration.ts`. -/
structure AIResult where
  success : Bool
  method : Method
  error : Option String := none
  platform : Option String := none
deriving DecidableEq, Repr

/-- Observable side effects of `sendToAI`.  `tabCreateFailed` records a
`chrome.tabs.create` call that threw, `injectionScheduled` the deferred
`injectTextIntoPlatform` timeout. -/
inductive SendEffect where
  | clipboardCopy (text : String)
  | tabCreated (url : String)
  | tabCreateFailed (url : String)
  | injectionScheduled (url : String) (text : String)
deriving DecidableEq, Repr

/-- Browser environment for `sendToAI`: the stored custom platforms (the
value `storageManager.getCustomPlatforms()` resolves to) and which URLs
`chrome.tabs.create` succeeds on.  `copyToClipboard` never throws (it
returns a result object), so it needs no failure flag. -/
structure BrowserEnv where
  customPlatforms : List CustomPlatform
  tabOpens : String → Bool

/-- The shared tail of `sendToAI` (`ai-integration.ts` lines 119-146):
open the platform's base URL, schedule the deferred injection, and
report method `clipboard`; report failure if the tab cannot be opened. -/
def sendToAIFallback (env : BrowserEnv) (platform : AIPlatform)
    (formattedMessage : String) (effects : List SendEffect) :
    AIResult × List SendEffect :=
  if env.tabOpens platform.url then
    ({ success := true, method := .clipboard, platform := some platform.name },
      effects ++ [.tabCreated platform.url,
        .injectionScheduled platform.url formattedMessage])
  else
    ({ success := false, method := .clipboard,
        error := some ("Failed to open " ++ platform.name ++ " tab"),
        platform := some platform.name },
      effects ++ [.tabCreateFailed platform.url])

/-- `sendToAI` from `ai-integration.ts` (lines 81-147): resolve the
platform, format the message, fail early on an empty formatted message,
copy to the clipboard, try the ChatGPT deep link when `autoSend` is set
and the URL fits in 1800 characters, and otherwise fall back to opening
the platform with deferred injection. -/
def sendToAI (env : BrowserEnv) (message : AIMessage) (autoSend : Bool)
    (platformId : String) : AIResult × List SendEffect :=
  let platform := getPlatform env.customPlatforms platformId
  let formattedMessage := formatMessageForClipboard message
  if jsTrim formattedMessage = "" then
    ({ success := false, method := .clipboard, error := some "No message to send",
        platform := some platform.name }, [])
  else
    let effects := [SendEffect.clipboardCopy formattedMessage]
    if autoSend && platformId == "chatgpt" then
      let deepLinkUrl := buildChatGPTUrl message
      if deepLinkUrl.length ≤ 1800 then
        if env.tabOpens deepLinkUrl then
          ({ success := true, method := .deeplink, platform := some platform.name },
            effects ++ [.tabCreated deepLinkUrl])
        else
          sendToAIFallback env platform formattedMessage
            (effects ++ [.tabCreateFailed deepLinkUrl])
      else
        sendToAIFallback env platform formattedMessage effects
    else
      sendToAIFallback env platform formattedMessage effects

/-- The fallback path always reports method `clipboard`. -/
theorem sendToAIFallback_method (env : BrowserEnv) (platform : AIPlatform)
    (formattedMessage : String) (effects : List SendEffect) :
    (sendToAIFallback env platform formattedMessage effects).1.method = Method.clipboard := by
  unfold sendToAIFallback
  split <;> rfl

/-- Every effect of the fallback path is either inherited or concerns the
platform's own base URL. -/
theorem sendToAIFallback_effects (env : BrowserEnv) (platform : AIPlatform)
    (formattedMessage : String) (effects : List SendEffect) (x : SendEffect)
    (hx : x ∈ (sendToAIFallback env platform formattedMessage effects).2) :
    x ∈ effects ∨ x = .tabCreated platform.url ∨
      x = .injectionScheduled platform.url formattedMessage ∨
      x = .tabCreateFailed platform.url := by
  unfold sendToAIFallback at hx
  by_cases htab : env.tabOpens platform.url = true <;> simp [htab] at hx <;> tauto

/-- C3: with `autoSend := true` and platform `"chatgpt"`, a non-empty
message is delivered by deep link when the constructed URL is at most
1800 characters long and the tab opens; when the URL is longer than 1800
characters no tab is ever opened on the deep-link URL and the result
method is `clipboard`. -/
theorem sendToAI_deeplink_bound (env : BrowserEnv) (message : AIMessage)
    (hne : jsTrim (formatMessageForClipboard message) ≠ "") :
    ((buildChatGPTUrl message).length ≤ 1800 →
      env.tabOpens (buildChatGPTUrl message) = true →
      (sendToAI env message true "chatgpt").1 =
        { success := true, method := .deeplink, platform := some "ChatGPT" }) ∧
    ((buildChatGPTUrl message).length > 1800 →
      ((sendToAI env message true "chatgpt").1.method = Method.clipboard ∧
        SendEffect.tabCreated (buildChatGPTUrl message) ∉
          (sendToAI env message true "chatgpt").2)) := by
  have hplat : getPlatform env.customPlatforms "chatgpt" = chatgptPlatform := rfl
  constructor
  · intro hlen htab
    unfold sendToAI
    rw [if_neg hne]
    simp [hlen, htab, hplat, chatgptPlatform]
  · intro hlen
    have hnotle : ¬ (buildChatGPTUrl message).length ≤ 1800 := by omega
    have hred : sendToAI env message true "chatgpt" =
        sendToAIFallback env chatgptPlatform (formatMessageForClipboard message)
          [SendEffect.clipboardCopy (formatMessageForClipboard message)] := by
      unfold sendToAI
      rw [if_neg hne]
      simp [hnotle, hplat]
    rw [hred]
    refine ⟨sendToAIFallback_method _ _ _ _, ?_⟩
    intro hmem
    rcases sendToAIFallback_effects _ _ _ _ _ hmem with h | h | h | h
    · simp at h
    · have hurl : buildChatGPTUrl message = chatgptPlatform.url :=
        SendEffect.tabCreated.inj h
      have h19 : (buildChatGPTUrl message).length = 19 := by
        rw [hurl]; decide
      omega
    · exact SendEffect.noConfusion h
    · exact SendEffect.noConfusion h

/-- An environment in which every tab creation succeeds and no custom
platforms are stored. -/
def envAllTabsOpen : BrowserEnv :=
  { customPlatforms := [], tabOpens := fun _ => true }

/-- A message of 200 three-byte characters: each percent-encodes to nine
characters, so the deep-link URL (1847 characters) exceeds the 1800
character bound. -/
def longMessage : AIMessage :=
  { text := some (String.mk (List.replicate 200 '你')), instructions := none }

/-- Character-wise serialization distributes over list append. -/
theorem encodeFormList_append (l1 l2 : List Char) :
    encodeFormList (l1 ++ l2) = encodeFormList l1 ++ encodeFormList l2 := by
  induction l1 with
  | nil => simp [encodeFormList]
  | cons c cs ih => simp [encodeFormList, ih, String.append_assoc]

/-- Length of the serialization of a repeated character. -/
theorem encodeFormList_replicate_length (n : Nat) (c : Char) :
    (encodeFormList (List.replicate n c)).length = n * (encodeFormChar c).length := by
  induction n with
  | zero => simp [encodeFormList, List.replicate]
  | succ k ih =>
    rw [List.replicate_succ]
    simp only [encodeFormList, String.length_append, ih]
    ring

/-- Trimming a repetition of a non-whitespace character is the identity. -/
theorem jsTrim_mk_replicate (n : Nat) (c : Char) (h : isJsWhitespace c = false) :
    jsTrim (String.mk (List.replicate n c)) = String.mk (List.replicate n c) := by
  have hdrop : ∀ m : Nat,
      (List.replicate m c).dropWhile isJsWhitespace = List.replicate m c := by
    intro m
    cases m with
    | zero => rfl
    | succ k =>
      rw [List.replicate_succ, List.dropWhile_cons_of_neg]
      simp [h]
  unfold jsTrim
  rw [hdrop, List.reverse_replicate, hdrop, List.reverse_replicate]

/-- The deep-link URL of `longMessage` is 1847 characters long. -/
theorem longMessage_url_length : (buildChatGPTUrl longMessage).length = 1847 := by
  have hc : isJsWhitespace '你' = false := by decide
  have htrim := jsTrim_mk_replicate 200 '你' hc
  have hne2 : (⟨List.replicate 200 '你'⟩ : String) ≠ "" := by
    intro h
    have hlen := congrArg String.length h
    rw [String.length_mk, List.length_replicate] at hlen
    exact absurd hlen (by decide)
  unfold buildChatGPTUrl longMessage
  simp only [Option.getD_some, Option.getD_none, htrim]
  rw [if_pos trivial, if_neg hne2, if_pos (show jsTrim "" = "" from rfl)]
  rw [String.empty_append]
  simp only [encodeFormComponent]
  rw [String.data_append, String.data_append, encodeFormList_append, encodeFormList_append]
  have hdata : (⟨List.replicate 200 '你'⟩ : String).data = List.replicate 200 '你' := rfl
  rw [hdata]
  simp only [String.length_append]
  rw [encodeFormList_replicate_length]
  have h1 : ("https://chatgpt.com/?q=" : String).length = 23 := by decide
  have h2 : (encodeFormList ("\"\"\"\n" : String).data).length = 12 := by decide
  have h3 : (encodeFormList ("\n\"\"\"" : String).data).length = 12 := by decide
  have h4 : (encodeFormChar '你').length = 9 := by decide
  rw [h1, h2, h3, h4]

set_option maxRecDepth 4000 in
/-- Witness for C3: the documented example message goes out by deep
link, and the long message falls back to the clipboard method with no
deep-link tab. -/
theorem sendToAI_deeplink_bound_witness :
    (sendToAI envAllTabsOpen { text := some "hello", instructions := some "do X" }
        true "chatgpt").1 =
      { success := true, method := .deeplink, platform := some "ChatGPT" } ∧
    ((sendToAI envAllTabsOpen longMessage true "chatgpt").1.method = Method.clipboard ∧
      SendEffect.tabCreated (buildChatGPTUrl longMessage) ∉
        (sendToAI envAllTabsOpen longMessage true "chatgpt").2) := by
  constructor
  · exact (sendToAI_deeplink_bound envAllTabsOpen
      { text := some "hello", instructions := some "do X" } (by decide)).1 (by decide) rfl
  · exact (sendToAI_deeplink_bound envAllTabsOpen longMessage (by decide)).2
      (by rw [longMessage_url_length]; omega)

/-- C4: when the formatted message trims to empty, `sendToAI` fails with
"No message to send" and method `clipboard`, and performs no side
effects: no clipboard write and no tab creation. -/
theorem sendToAI_empty_message (env : BrowserEnv) (message : AIMessage)
    (autoSend : Bool) (platformId : String)
    (h : jsTrim (formatMessageForClipboard message) = "") :
    sendToAI env message autoSend platformId =
      ({ success := false, method := .clipboard, error := some "No message to send",
          platform := some (getPlatform env.customPlatforms platformId).name }, []) := by
  unfold sendToAI
  rw [if_pos h]

/-- Witness for C4: an all-whitespace message is rejected with no
effects. -/
theorem sendToAI_empty_message_witness :
    sendToAI envAllTabsOpen { text := some "  ", instructions := some "\n" }
        true "chatgpt" =
      ({ success := false, method := .clipboard, error := some "No message to send",
          platform := some "ChatGPT" }, []) := by
  rw [sendToAI_empty_message envAllTabsOpen _ true "chatgpt" (by decide)]
  rfl

/-- `ExtensionSettings` from `storage.ts`. -/
structure ExtensionSettings where
  autoSend : Bool
  defaultInstructions : String
  maxTextLength : Nat
  defaultModel : String
  darkMode : Bool
  saveInstructions : Bool
  defaultPlatform : String
deriving DecidableEq, Repr

/-- `DEFAULT_SETTINGS` from `storage.ts`. -/
def DEFAULT_SETTINGS : ExtensionSettings :=
  { autoSend := false, defaultInstructions := "", maxTextLength := 8192,
    defaultModel := "gpt-4o", darkMode := false, saveInstructions := false,
    defaultPlatform := "chatgpt" }

/-- A `Partial<ExtensionSettings>` patch: each key optionally present. -/
structure SettingsPatch where
  autoSend : Option Bool := none
  defaultInstructions : Option String := none
  maxTextLength : Option Nat := none
  defaultModel : Option String := none
  darkMode : Option Bool := none
  saveInstructions : Option Bool := none
  defaultPlatform : Option String := none
deriving DecidableEq, Repr

/-- Key-by-key overlay of a stored subset over a base record: the
semantics of the JavaScript spread `{...base, ...patch}`. -/
def applyPatch (base : ExtensionSettings) (patch : SettingsPatch) : ExtensionSettings :=
  { autoSend := patch.autoSend.getD base.autoSend,
    defaultInstructions := patch.defaultInstructions.getD base.defaultInstructions,
    maxTextLength := patch.maxTextLength.getD base.maxTextLength,
    defaultModel := patch.defaultModel.getD base.defaultModel,
    darkMode := patch.darkMode.getD base.darkMode,
    saveInstructions := patch.saveInstructions.getD base.saveInstructions,
    defaultPlatform := patch.defaultPlatform.getD base.defaultPlatform }

/-- One storage backend (`chrome.storage.sync` or `chrome.storage.local`):
whether its operations currently succeed, and the stored settings subset. -/
structure StorageBackend where
  works : Bool
  settingsData : SettingsPatch

/-- `chrome.storage.X.get(DEFAULT_SETTINGS)`: on success Chrome answers
each requested key with the stored value when present, else the supplied
default; a failing backend rejects (`none`). -/
def backendGetSettings (b : StorageBackend) : Option ExtensionSettings :=
  if b.works then some (applyPatch DEFAULT_SETTINGS b.settingsData) else none

/-- `StorageManager.getSettings` from `storage.ts` (lines 40-54): read
the sync backend and spread the result over the defaults; on rejection
retry with the local backend; on a second rejection return the pure
defaults.  The result type is total, so every settings key is always
present. -/
def getSettings (syncB localB : StorageBackend) : ExtensionSettings :=
  match backendGetSettings syncB with
  | some result => applyPatch DEFAULT_SETTINGS
      { autoSend := some result.autoSend,
        defaultInstructions := some result.defaultInstructions,
        maxTextLength := some result.maxTextLength,
        defaultModel := some result.defaultModel,
        darkMode := some result.darkMode,
        saveInstructions := some result.saveInstructions,
        defaultPlatform := some result.defaultPlatform }
  | none =>
    match backendGetSettings localB with
    | some result => applyPatch DEFAULT_SETTINGS
        { autoSend := some result.autoSend,
          defaultInstructions := some result.defaultInstructions,
          maxTextLength := some result.maxTextLength,
          defaultModel := some result.defaultModel,
          darkMode := some result.darkMode,
          saveInstructions := some result.saveInstructions,
          defaultPlatform := some result.defaultPlatform }
    | none => DEFAULT_SETTINGS

/-- C6: `getSettings` merges the stored subset over the defaults
key-by-key from the sync backend, falls back to the local backend when
the sync read rejects, and returns the pure defaults when both reject;
being a total function into `ExtensionSettings` it always yields every
key and never throws. -/
theorem getSettings_correct (syncB localB : StorageBackend) :
    (syncB.works = true →
      getSettings syncB localB = applyPatch DEFAULT_SETTINGS syncB.settingsData) ∧
    (syncB.works = false → localB.works = true →
      getSettings syncB localB = applyPatch DEFAULT_SETTINGS localB.settingsData) ∧
    (syncB.works = false → localB.works = false →
      getSettings syncB localB = DEFAULT_SETTINGS) := by
  refine ⟨?_, ?_, ?_⟩
  · intro hs
    simp only [getSettings, backendGetSettings, hs, if_pos]
    cases syncB.settingsData with
    | mk a b c d e f g => cases a <;> cases b <;> cases c <;> cases d <;> cases e <;>
        cases f <;> cases g <;> rfl
  · intro hs hl
    simp only [getSettings, backendGetSettings, hs, hl, if_pos, Bool.false_eq_true,
      if_false]
    cases localB.settingsData with
    | mk a b c d e f g => cases a <;> cases b <;> cases c <;> cases d <;> cases e <;>
        cases f <;> cases g <;> rfl
  · intro hs hl
    simp [getSettings, backendGetSettings, hs, hl]

/-- Witness for C6: a stored subset `{autoSend := true}` read from a
working sync backend overrides only that key; a double failure yields
the defaults. -/
theorem getSettings_correct_witness :
    getSettings { works := true, settingsData := { autoSend := some true } }
        { works := false, settingsData := {} } =
      { DEFAULT_SETTINGS with autoSend := true } ∧
    getSettings { works := false, settingsData := {} }
        { works := false, settingsData := { darkMode := some true } } =
      DEFAULT_SETTINGS := by
  constructor
  · rw [(getSettings_correct { works := true, settingsData := { autoSend := some true } }
      { works := false, settingsData := {} }).1 rfl]
    rfl
  · exact (getSettings_correct { works := false, settingsData := {} }
      { works := false, settingsData := { darkMode := some true } }).2.2 rfl rfl

/-- `DEBOUNCE_DELAY` from `storage.ts`. -/
def DEBOUNCE_DELAY : Nat := 300

/-- A completed settings write, tagged with the backend that accepted
it. -/
inductive SettingsWrite where
  | syncWrite (patch : SettingsPatch)
  | localWrite (patch : SettingsPatch)
deriving DecidableEq, Repr

/-- The body of the debounce timer in `StorageManager.saveSettings`
(storage.ts lines 65-78): attempt `chrome.storage.sync.set(settings)`,
fall back to `chrome.storage.local.set(settings)`, and resolve silently
when both fail. -/
def flushSettingsWrite (syncWorks localWorks : Bool) (patch : SettingsPatch) :
    List SettingsWrite :=
  if syncWorks then [.syncWrite patch]
  else if localWorks then [.localWrite patch]
  else []

/-- Event-loop model of repeated `saveSettings` calls (storage.ts lines
59-81).  The state is the armed timer: its deadline and the patch its
callback captured.  Before handling a call at time `t`, an armed timer
whose deadline has passed fires; the call then clears any armed timer
(discarding its patch) and arms a new one at `t + DEBOUNCE_DELAY`.
After the last call, time runs on and the armed timer fires.  The
result is the list of completed backend writes in order. -/
def runSaveCalls (syncWorks localWorks : Bool) :
    Option (Nat × SettingsPatch) → List (Nat × SettingsPatch) → List SettingsWrite
  | some (_, patch), [] => flushSettingsWrite syncWorks localWorks patch
  | none, [] => []
  | some (deadline, pendingPatch), (t, patch) :: calls =>
    if deadline ≤ t then
      flushSettingsWrite syncWorks localWorks pendingPatch ++
        runSaveCalls syncWorks localWorks (some (t + DEBOUNCE_DELAY, patch)) calls
    else
      runSaveCalls syncWorks localWorks (some (t + DEBOUNCE_DELAY, patch)) calls
  | none, (t, patch) :: calls =>
    runSaveCalls syncWorks localWorks (some (t + DEBOUNCE_DELAY, patch)) calls

/-- While every later call arrives strictly before the armed deadline,
the pending patch is discarded and only the last call's patch is
flushed. -/
theorem runSaveCalls_window (syncWorks localWorks : Bool) :
    ∀ (calls : List (Nat × SettingsPatch)) (t : Nat) (patch : SettingsPatch),
      List.Chain' (fun a b => b.1 < a.1 + DEBOUNCE_DELAY) ((t, patch) :: calls) →
      runSaveCalls syncWorks localWorks (some (t + DEBOUNCE_DELAY, patch)) calls =
        flushSettingsWrite syncWorks localWorks
          (((t, patch) :: calls).getLast (by simp)).2 := by
  intro calls
  induction calls with
  | nil => intro t patch _; rfl
  | cons c rest ih =>
    intro t patch hchain
    obtain ⟨t2, patch2⟩ := c
    have hlt : t2 < t + DEBOUNCE_DELAY := (List.chain'_cons.mp hchain).1
    have hchain2 : List.Chain' (fun a b => b.1 < a.1 + DEBOUNCE_DELAY)
        ((t2, patch2) :: rest) := (List.chain'_cons.mp hchain).2
    rw [runSaveCalls, if_neg (by omega)]
    rw [ih t2 patch2 hchain2]
    congr 1

/-- C5: `saveSettings` calls all arriving within the 300 ms debounce
window collapse into exactly one backend write containing exactly the
last patch; the earlier patches are discarded, not merged. -/
theorem saveSettings_debounce (localWorks : Bool)
    (calls : List (Nat × SettingsPatch)) (hne : calls ≠ [])
    (hwindow : List.Chain' (fun a b => b.1 < a.1 + DEBOUNCE_DELAY) calls) :
    runSaveCalls true localWorks none calls =
      [SettingsWrite.syncWrite (calls.getLast hne).2] := by
  obtain ⟨⟨t, patch⟩, rest, rfl⟩ : ∃ c cs, calls = c :: cs := by
    cases calls with
    | nil => exact absurd rfl hne
    | cons c cs => exact ⟨c, cs, rfl⟩
  rw [runSaveCalls]
  rw [runSaveCalls_window true localWorks rest t patch hwindow]
  rfl

/-- Witness for C5: three rapid calls at 0 ms, 100 ms and 250 ms produce
one sync write holding only the third patch. -/
theorem saveSettings_debounce_witness :
    runSaveCalls true true none
        [(0, { autoSend := some true }), (100, { darkMode := some true }),
          (250, { defaultModel := some "gpt-4" })] =
      [SettingsWrite.syncWrite { defaultModel := some "gpt-4" }] := by
  rw [saveSettings_debounce true
    [(0, { autoSend := some true }), (100, { darkMode := some true }),
      (250, { defaultModel := some "gpt-4" })] (by simp)
    (by norm_num [List.chain'_cons, List.chain'_singleton, DEBOUNCE_DELAY])]
  rfl

/-- A completed custom-platform write, tagged with its backend. -/
inductive CustomWrite where
  | syncWrite (platforms : List CustomPlatform)
  | localWrite (platforms : List CustomPlatform)
deriving DecidableEq, Repr

/-- `StorageManager.saveCustomPlatforms` from `storage.ts` (lines
138-150): write immediately (no debounce) to the sync backend, fall
back to the local backend, and — unlike `saveSettings` — rethrow the
local error when both backends fail (`throw localError`, line 147). -/
def saveCustomPlatforms (syncWorks localWorks : Bool)
    (platforms : List CustomPlatform) : Except String (List CustomWrite) :=
  if syncWorks then Except.ok [.syncWrite platforms]
  else if localWorks then Except.ok [.localWrite platforms]
  else Except.error "Storage unavailable"

/-- Counterexample for C8: when both backends fail,
`saveCustomPlatforms` does not silently complete — it rethrows the
local error to the caller. -/
theorem saveCustomPlatforms_counterexample :
    (saveCustomPlatforms false false []).isOk = false ∧
    saveCustomPlatforms false false [] = Except.error "Storage unavailable" :=
  ⟨rfl, rfl⟩

/-- C8 (amended): every `saveCustomPlatforms` call issues an immediate,
undebounced write attempt to the sync backend and falls back to the
local backend on failure, but when both backends fail the local
exception propagates to the caller instead of being swallowed. -/
theorem saveCustomPlatforms_behavior (localWorks : Bool)
    (platforms : List CustomPlatform) :
    saveCustomPlatforms true localWorks platforms =
        Except.ok [CustomWrite.syncWrite platforms] ∧
    saveCustomPlatforms false true platforms =
        Except.ok [CustomWrite.localWrite platforms] ∧
    saveCustomPlatforms false false platforms =
        Except.error "Storage unavailable" :=
  ⟨rfl, rfl, rfl⟩

/-- Observable outcome of the two clear operations in `resetSettings`. -/
inductive ResetEffect where
  | syncCleared
  | syncClearFailed
  | localCleared
  | localClearFailed
deriving DecidableEq, Repr

/-- The `try` block of `StorageManager.resetSettings` (storage.ts lines
87-89): `await chrome.storage.sync.clear()` then
`await chrome.storage.local.clear()`.  Returns the effects that
happened and whether the block threw: a sync failure throws before the
local clear is ever attempted. -/
def clearBothBody (syncClearWorks localClearWorks : Bool) : List ResetEffect × Bool :=
  if syncClearWorks then
    if localClearWorks then ([.syncCleared, .localCleared], false)
    else ([.syncCleared, .localClearFailed], true)
  else ([.syncClearFailed], true)

/-- `StorageManager.resetSettings` from `storage.ts` (lines 86-93): run
the try block; the catch merely logs, so the thrown error never reaches
the caller. -/
def resetSettings (syncClearWorks localClearWorks : Bool) : List ResetEffect :=
  (clearBothBody syncClearWorks localClearWorks).1

/-- Counterexample for C9: when the sync clear fails (and the local
backend would have worked), the local backend is never cleared — the
failure of the synchronized clear does prevent the local clear. -/
theorem resetSettings_counterexample :
    resetSettings false true = [ResetEffect.syncClearFailed] ∧
    ResetEffect.localCleared ∉ resetSettings false true := by
  exact ⟨rfl, by decide⟩

/-- C9 (amended): `resetSettings` clears the sync backend and then the
local backend; any thrown error is swallowed by the catch, so the
caller always receives a settled result — but a failure of the sync
clear aborts the try block, so the local backend is then not cleared. -/
theorem resetSettings_behavior (localClearWorks : Bool) :
    resetSettings true true = [ResetEffect.syncCleared, ResetEffect.localCleared] ∧
    resetSettings true false =
        [ResetEffect.syncCleared, ResetEffect.localClearFailed] ∧
    resetSettings false localClearWorks = [ResetEffect.syncClearFailed] ∧
    (clearBothBody false localClearWorks).2 = true ∧
    resetSettings false localClearWorks = (clearBothBody false localClearWorks).1 := by
  refine ⟨rfl, rfl, ?_, ?_, rfl⟩ <;> cases localClearWorks <;> rfl

/-- C7: `getPlatform` checks the built-in table first, then the stored
custom platforms by id (projecting a match to a `Platform` with empty
selectors), and falls back to the built-in `chatgpt` entry when the id
matches neither; in particular, after `removeCustomPlatform` deletes
the platform with a given non-built-in id, the next `getPlatform` on
that id resolves to the built-in `chatgpt` platform. -/
theorem getPlatform_resolution :
    (∀ (customs : List CustomPlatform) (id : String) (p : AIPlatform),
      AI_PLATFORMS id = some p → getPlatform customs id = p) ∧
    (∀ (customs : List CustomPlatform) (id : String) (c : CustomPlatform),
      AI_PLATFORMS id = none → customs.find? (fun q => q.id == id) = some c →
      getPlatform customs id = projectCustomPlatform c) ∧
    (∀ (customs : List CustomPlatform) (id : String),
      AI_PLATFORMS id = none → customs.find? (fun q => q.id == id) = none →
      getPlatform customs id = chatgptPlatform) ∧
    (∀ (customs : List CustomPlatform) (id : String),
      AI_PLATFORMS id = none →
      getPlatform (removeCustomPlatform customs id) id = chatgptPlatform) := by
  refine ⟨?_, ?_, ?_, ?_⟩
  · intro customs id p hp
    unfold getPlatform
    rw [hp]
  · intro customs id c hbuiltin hfind
    unfold getPlatform
    rw [hbuiltin, hfind]
  · intro customs id hbuiltin hfind
    unfold getPlatform
    rw [hbuiltin, hfind]
  · intro customs id hbuiltin
    unfold getPlatform
    rw [hbuiltin]
    have hfind : (removeCustomPlatform customs id).find? (fun q => q.id == id) = none := by
      rw [List.find?_eq_none]
      intro q hq
      have hmem := List.mem_filter.mp hq
      simp only [bne_iff_ne, ne_eq] at hmem
      simp [hmem.2]
    rw [hfind]

/-- A sample stored custom platform. -/
def customOne : CustomPlatform :=
  { id := "custom_1", name := "My AI", icon := "⭐", url := "https://example.com/chat" }

/-- Witness for C7: a stored custom platform is found and projected;
after its removal the same id resolves to the built-in chatgpt entry. -/
theorem getPlatform_resolution_witness :
    getPlatform [customOne] "custom_1" = projectCustomPlatform customOne ∧
    getPlatform (removeCustomPlatform [customOne] "custom_1") "custom_1" =
      chatgptPlatform := by
  constructor
  · exact getPlatform_resolution.2.1 [customOne] "custom_1" customOne rfl rfl
  · exact getPlatform_resolution.2.2.2 [customOne] "custom_1" rfl

/-- If every element surviving `dropWhile p` satisfies `p`, the whole
list satisfies `p`. -/
theorem all_of_dropWhile_all (p : Char → Bool) :
    ∀ l : List Char, (∀ x ∈ l.dropWhile p, p x = true) → ∀ x ∈ l, p x = true := by
  intro l
  induction l with
  | nil => intro _ x hx; cases hx
  | cons a t ih =>
    intro h x hx
    by_cases hpa : p a = true
    · rcases List.mem_cons.mp hx with rfl | hxt
      · exact hpa
      · exact ih (by rw [List.dropWhile_cons_of_pos hpa] at h; exact h) x hxt
    · rw [List.dropWhile_cons_of_neg hpa] at h
      exact h x hx

/-- A string trims to empty exactly when all its characters are
whitespace. -/
theorem jsTrim_eq_empty_iff (s : String) :
    jsTrim s = "" ↔ ∀ c ∈ s.data, isJsWhitespace c = true := by
  constructor
  · intro h c hc
    have hdata : ((s.data.dropWhile isJsWhitespace).reverse.dropWhile
        isJsWhitespace).reverse = [] := congrArg String.data h
    rw [List.reverse_eq_nil_iff, List.dropWhile_eq_nil_iff] at hdata
    have hall : ∀ x ∈ s.data.dropWhile isJsWhitespace, isJsWhitespace x = true := by
      intro x hx
      exact hdata x (List.mem_reverse.mpr hx)
    exact all_of_dropWhile_all isJsWhitespace s.data hall c hc
  · intro h
    apply String.ext
    show ((s.data.dropWhile isJsWhitespace).reverse.dropWhile isJsWhitespace).reverse = []
    rw [List.reverse_eq_nil_iff, List.dropWhile_eq_nil_iff]
    intro x hx
    exact h x ((List.dropWhile_sublist isJsWhitespace).mem (List.mem_reverse.mp hx))

/-- A trimmed string all of whose characters are whitespace is empty. -/
theorem jsTrim_eq_empty_of_all_ws (s : String)
    (h : ∀ c ∈ (jsTrim s).data, isJsWhitespace c = true) : jsTrim s = "" := by
  by_cases hnil :
      (s.data.dropWhile isJsWhitespace).reverse.dropWhile isJsWhitespace = []
  · apply String.ext
    show ((s.data.dropWhile isJsWhitespace).reverse.dropWhile isJsWhitespace).reverse = []
    rw [hnil, List.reverse_nil]
  · exfalso
    have hhead := List.head_dropWhile_not isJsWhitespace
      (s.data.dropWhile isJsWhitespace).reverse hnil
    have hmem : ((s.data.dropWhile isJsWhitespace).reverse.dropWhile
        isJsWhitespace).head hnil ∈ (jsTrim s).data := by
      show _ ∈ ((s.data.dropWhile isJsWhitespace).reverse.dropWhile isJsWhitespace).reverse
      exact List.mem_reverse.mpr (List.head_mem hnil)
    rw [h _ hmem] at hhead
    cases hhead

/-- A "Failed to open … tab" error is never the "No message to send"
error. -/
theorem failed_open_ne (name : String) :
    ("Failed to open " ++ name ++ " tab") ≠ "No message to send" := by
  intro h
  have hd := congrArg String.data h
  rw [String.data_append, String.data_append] at hd
  have h1 : ("Failed to open " : String).data = 'F' :: ("ailed to open " : String).data :=
    rfl
  have h2 : ("No message to send" : String).data =
      'N' :: ("o message to send" : String).data := rfl
  rw [h1, h2, List.cons_append, List.cons_append] at hd
  injection hd with hhead _
  exact absurd hhead (by decide)

/-- The fallback path never reports the "No message to send" error. -/
theorem sendToAIFallback_error_ne (env : BrowserEnv) (platform : AIPlatform)
    (formattedMessage : String) (effects : List SendEffect) :
    (sendToAIFallback env platform formattedMessage effects).1.error ≠
      some "No message to send" := by
  unfold sendToAIFallback
  by_cases htab : env.tabOpens platform.url = true
  · rw [if_pos htab]
    simp
  · rw [if_neg htab]
    simp only [ne_eq, Option.some.injEq]
    exact failed_open_ne platform.name

/-- C10: a message that `validateMessage` accepts has a formatted form
that does not trim to empty, so `sendToAI` on a validated message never
takes the "No message to send" failure branch: the validation gate and
the orchestrator's emptiness check agree. -/
theorem validateMessage_sendToAI_agree (message : AIMessage)
    (h : (validateMessage message).valid = true) :
    jsTrim (formatMessageForClipboard message) ≠ "" ∧
    ∀ (env : BrowserEnv) (autoSend : Bool) (platformId : String),
      (sendToAI env message autoSend platformId).1.error ≠ some "No message to send" := by
  have hne : jsTrim (formatMessageForClipboard message) ≠ "" := by
    have hnonempty : ¬ (jsTrim (message.text.getD "") = "" ∧
        jsTrim (message.instructions.getD "") = "") := by
      intro hboth
      rw [validateMessage, if_pos hboth] at h
      cases h
    intro htrim
    have hallws := (jsTrim_eq_empty_iff (formatMessageForClipboard message)).mp htrim
    by_cases ht : jsTrim (message.text.getD "") = ""
    · have hi : jsTrim (message.instructions.getD "") ≠ "" := fun hi =>
        hnonempty ⟨ht, hi⟩
      have hfmt : formatMessageForClipboard message =
          jsTrim (message.instructions.getD "") ++ "\n\n" := by
        simp only [formatMessageForClipboard]
        rw [if_neg hi, if_pos ht]
      rw [hfmt, String.data_append] at hallws
      apply hi
      apply jsTrim_eq_empty_of_all_ws
      intro c hc
      exact hallws c (List.mem_append.mpr (Or.inl hc))
    · have hfmt2 : ('"' : Char) ∈ (formatMessageForClipboard message).data := by
        simp only [formatMessageForClipboard]
        rw [if_neg ht]
        rw [String.data_append, String.data_append, String.data_append]
        refine List.mem_append.mpr (Or.inr ?_)
        refine List.mem_append.mpr (Or.inl ?_)
        refine List.mem_append.mpr (Or.inl ?_)
        decide
      have := hallws '"' hfmt2
      exact absurd this (by decide)
  refine ⟨hne, ?_⟩
  intro env autoSend platformId
  unfold sendToAI
  rw [if_neg hne]
  by_cases hauto : (autoSend && (platformId == "chatgpt")) = true
  · rw [if_pos hauto]
    by_cases hlen : (buildChatGPTUrl message).length ≤ 1800
    · rw [if_pos hlen]
      by_cases htab : env.tabOpens (buildChatGPTUrl message) = true
      · rw [if_pos htab]
        simp
      · rw [if_neg htab]
        exact sendToAIFallback_error_ne _ _ _ _
    · rw [if_neg hlen]
      exact sendToAIFallback_error_ne _ _ _ _
  · rw [if_neg hauto]
    exact sendToAIFallback_error_ne _ _ _ _

/-- Witness for C10: the documented example message is valid, formats to
a non-blank string, and is never rejected as "No message to send". -/
theorem validateMessage_sendToAI_agree_witness :
    (validateMessage { text := some "hello", instructions := some "do X" }).valid = true ∧
    jsTrim (formatMessageForClipboard
      { text := some "hello", instructions := some "do X" }) ≠ "" ∧
    (sendToAI envAllTabsOpen { text := some "hello", instructions := some "do X" }
        false "claude").1.error ≠ some "No message to send" := by
  have h := validateMessage_sendToAI_agree
    { text := some "hello", instructions := some "do X" } (by decide)
  exact ⟨by decide, h.1, h.2 envAllTabsOpen false "claude"⟩
